import Mathlib

/-!
Verification of the JUnit XML validation / parsing / merging engine
(test_reporting/junit_xml_parser.py), via a shallow embedding.

Python machine integers are modelled as Int/Nat, Python floats as exact
fractions (an integer numerator over a positive natural denominator, kept
unnormalized so that every operation is structural and kernel-reducible),
XML element trees as a simple inductive tree, Python dicts as
insertion-ordered association lists, and raised exceptions as Except values.
-/

/-! ## Python primitive helpers -/

/-- The ten decimal digit characters. -/
def digitChar : Nat → Char
  | 0 => '0' | 1 => '1' | 2 => '2' | 3 => '3' | 4 => '4'
  | 5 => '5' | 6 => '6' | 7 => '7' | 8 => '8' | _ => '9'

/-- Decimal digits of a natural number, most significant first (fuel-driven). -/
def natDigsAux : Nat → Nat → List Char
  | 0, _ => []
  | fuel+1, n => if n < 10 then [digitChar n] else natDigsAux fuel (n / 10) ++ [digitChar (n % 10)]

/-- Decimal string of a natural number, as Python str(int). -/
def natToStr (n : Nat) : String := String.mk (natDigsAux (n+1) n)

/-- Decimal string of an integer, as Python str(int). -/
def intToStr (i : Int) : String := if i < 0 then "-" ++ natToStr i.natAbs else natToStr i.natAbs

/-- Value of a list of decimal digit characters, most significant first. -/
def digitsValN (cs : List Char) : Nat := cs.foldl (fun a c => 10 * a + (c.toNat - 48)) 0

/-- Parse a non-empty all-digit character list. -/
def parseNatDigits (cs : List Char) : Option Nat :=
  if cs.isEmpty then none
  else if cs.all Char.isDigit then some (digitsValN cs) else none

/-- Model of Python int(s) on a character list: plain decimal literals with an
optional leading minus sign (the only forms this program produces or consumes). -/
def pyIntChars : List Char → Option Int
  | [] => none
  | c :: cs =>
    if c = '-' then (parseNatDigits cs).map (fun n => -(n : Int))
    else (parseNatDigits (c :: cs)).map (fun n => (n : Int))

/-- Model of Python int(s). -/
def pyInt? (s : String) : Option Int := pyIntChars s.data

/-- An exact fraction modelling a Python float value: an integer numerator over
a positive natural denominator.  Not kept in lowest terms; all arithmetic is
structural so that concrete computations reduce inside the kernel. -/
structure PyF where
  num : Int
  den : Nat
deriving Repr, DecidableEq

def PyF.zero : PyF := ⟨0, 1⟩

def PyF.ofNat (n : Nat) : PyF := ⟨(n : Int), 1⟩

def PyF.add (a b : PyF) : PyF := ⟨a.num * (b.den : Int) + b.num * (a.den : Int), a.den * b.den⟩

def PyF.neg (a : PyF) : PyF := ⟨-a.num, a.den⟩

/-- Unsigned body of a decimal float literal: digits with an optional single
decimal point, at least one digit overall. -/
def pyFloatBody (cs : List Char) : Option PyF :=
  match cs.splitOn '.' with
  | [ip] => (parseNatDigits ip).map (fun n => PyF.ofNat n)
  | [ip, fp] =>
    let allcs := ip ++ fp
    if allcs.isEmpty then none
    else if allcs.all Char.isDigit then some ⟨(digitsValN allcs : Int), 10 ^ fp.length⟩
    else none
  | _ => none

/-- Model of Python float(s) restricted to plain decimal literals with optional
leading minus sign; the float value itself is modelled as an exact fraction. -/
def pyFloat? (s : String) : Option PyF :=
  match s.data with
  | [] => none
  | c :: cs =>
    if c = '-' then (pyFloatBody cs).map PyF.neg
    else pyFloatBody (c :: cs)

/-- Multiplicity of prime p in n (fuel-driven, total). -/
def padicVAux (p : Nat) : Nat → Nat → Nat
  | 0, _ => 0
  | fuel+1, n => if n ≠ 0 ∧ n % p = 0 then 1 + padicVAux p fuel (n / p) else 0

/-- Left-pad the decimal form of n with zeros to width w. -/
def padZ (w n : Nat) : String :=
  let s := natToStr n
  String.mk (List.replicate (w - s.length) '0') ++ s

/-- Drop trailing zero characters. -/
def dropTrailingZeros (s : String) : String :=
  String.mk (s.data.reverse.dropWhile (fun c => c = '0')).reverse

/-- Python s.split(sep) for a single-character separator. -/
def strSplitOn (s : String) (sep : Char) : List String :=
  (s.data.splitOn sep).map String.mk

/-- Python s[:n]. -/
def strTake (s : String) (n : Nat) : String := String.mk (s.data.take n)

/-- Decimal rendering of a fraction whose denominator divides a power of ten,
matching Python str(float) on such values: a sign, an integer part, a decimal
point, and the shortest exact fraction part, with ".0" for integral values. -/
def qDecStr (q : PyF) : String :=
  let d := q.den
  let a := padicVAux 2 d d
  let b := padicVAux 5 d d
  if d = 2 ^ a * 5 ^ b then
    let sign := if q.num < 0 then "-" else ""
    let k := max a b
    if k = 0 then sign ++ natToStr q.num.natAbs ++ ".0"
    else
      let scaled := q.num.natAbs * 10 ^ k / d
      let frac := dropTrailingZeros (padZ k (scaled % 10 ^ k))
      sign ++ natToStr (scaled / 10 ^ k) ++ "." ++ (if frac = "" then "0" else frac)
  else natToStr q.num.natAbs ++ "/" ++ natToStr d

/-- Round a fraction to the nearest integer, ties to even (Python round). -/
def roundHalfEvenQ (q : PyF) : Int :=
  let f := Int.fdiv q.num (q.den : Int)
  let rN := q.num - f * (q.den : Int)
  if 2 * rN < (q.den : Int) then f
  else if (q.den : Int) < 2 * rN then f + 1
  else if f % 2 = 0 then f else f + 1

/-- Model of Python round(x, 3) on floats. -/
def pyRound3 (q : PyF) : PyF := ⟨roundHalfEvenQ ⟨q.num * 1000, q.den⟩, 1000⟩

/-! ## datetime model (fixed format "%Y-%m-%d %H:%M:%S.%f") -/

structure PyDateTime where
  year : Nat
  month : Nat
  day : Nat
  hour : Nat
  minute : Nat
  second : Nat
  micro : Nat
deriving DecidableEq, Repr

/-- Injective key realizing the lexicographic order of datetime fields. -/
def dtKey (d : PyDateTime) : Nat :=
  ((((((d.year * 13 + d.month) * 32 + d.day) * 24 + d.hour) * 60 + d.minute) * 60 + d.second)
    * 1000000) + d.micro

/-- Python min on two datetimes: the second iff it is strictly smaller. -/
def pyMinDT (a b : PyDateTime) : PyDateTime := if dtKey b < dtKey a then b else a

/-- Take up to n leading digit characters. -/
def takeDigits : Nat → List Char → List Char × List Char
  | 0, cs => ([], cs)
  | _+1, [] => ([], [])
  | n+1, c :: cs =>
    if c.isDigit then
      let p := takeDigits n cs
      (c :: p.1, p.2)
    else ([], c :: cs)

/-- Expect one specific character. -/
def expectCh (c : Char) : List Char → Option (List Char)
  | [] => none
  | x :: r => if x = c then some r else none

/-- Model of datetime.strptime(s, "%Y-%m-%d %H:%M:%S.%f"): a four digit year,
one or two digit month/day/hour/minute/second with the literal separators, and
a mandatory fraction of one to six digits scaled to microseconds.  Calendar
day validation is simplified to the range 1..31. -/
def strptimeFixed (s : String) : Option PyDateTime :=
  let p0 := takeDigits 4 s.data
  if p0.1.length ≠ 4 then none else
  match expectCh '-' p0.2 with
  | none => none
  | some r1 =>
    let p1 := takeDigits 2 r1
    if p1.1.isEmpty then none else
    match expectCh '-' p1.2 with
    | none => none
    | some r2 =>
      let p2 := takeDigits 2 r2
      if p2.1.isEmpty then none else
      match expectCh ' ' p2.2 with
      | none => none
      | some r3 =>
        let p3 := takeDigits 2 r3
        if p3.1.isEmpty then none else
        match expectCh ':' p3.2 with
        | none => none
        | some r4 =>
          let p4 := takeDigits 2 r4
          if p4.1.isEmpty then none else
          match expectCh ':' p4.2 with
          | none => none
          | some r5 =>
            let p5 := takeDigits 2 r5
            if p5.1.isEmpty then none else
            match expectCh '.' p5.2 with
            | none => none
            | some r6 =>
              let p6 := takeDigits 6 r6
              if p6.1.isEmpty then none else
              if ¬ p6.2.isEmpty then none else
              let mo := digitsValN p1.1
              let dd := digitsValN p2.1
              let hh := digitsValN p3.1
              let mi := digitsValN p4.1
              let ss := digitsValN p5.1
              if 1 ≤ mo ∧ mo ≤ 12 ∧ 1 ≤ dd ∧ dd ≤ 31 ∧ hh ≤ 23 ∧ mi ≤ 59 ∧ ss ≤ 59 then
                some {
                  year := digitsValN p0.1, month := mo, day := dd,
                  hour := hh, minute := mi, second := ss,
                  micro := digitsValN p6.1 * 10 ^ (6 - p6.1.length) }
              else none

/-- Model of Python str(datetime): zero-padded fields, and the microsecond
fraction is omitted entirely when the microsecond value is zero. -/
def dtStr (d : PyDateTime) : String :=
  padZ 4 d.year ++ "-" ++ padZ 2 d.month ++ "-" ++ padZ 2 d.day ++ " " ++
    padZ 2 d.hour ++ ":" ++ padZ 2 d.minute ++ ":" ++ padZ 2 d.second ++
    (if d.micro = 0 then "" else "." ++ padZ 6 d.micro)

/-! ## Python dict model (insertion-ordered association lists) -/

/-- First-match association lookup (Python dict lookup; keys are unique). -/
def pyLookup {α : Type} : List (String × α) → String → Option α
  | [], _ => none
  | (k, v) :: rest, key => if k = key then some v else pyLookup rest key

/-- Python dict assignment: overwrite in place, or append a new key at the end. -/
def dictSet {α : Type} : List (String × α) → String → α → List (String × α)
  | [], k, v => [(k, v)]
  | (k0, v0) :: rest, k, v =>
    if k0 = k then (k0, v) :: rest else (k0, v0) :: dictSet rest k v

/-- Boolean set inclusion of key lists. -/
def subsetB (a b : List String) : Bool := a.all (fun x => b.contains x)

/-- Python strict set inclusion set(a) < set(b). -/
def strictSubsetB (a b : List String) : Bool := subsetB a b && !subsetB b a

/-- Python dict equality: same key-value pairs, ignoring insertion order. -/
def dictBeq (a b : List (String × String)) : Bool :=
  a.all (fun kv => pyLookup b kv.1 == some kv.2) && b.all (fun kv => pyLookup a kv.1 == some kv.2)

/-- Python repr of a string-to-string dict. -/
def dictRepr (d : List (String × String)) : String :=
  "\x7b" ++ String.intercalate ", "
    (d.map (fun kv => "\x27" ++ kv.1 ++ "\x27: \x27" ++ kv.2 ++ "\x27")) ++ "\x7d"

/-! ## XML element tree model -/

/-- An XML element: a tag, attributes, and child elements (text is irrelevant
to this program).  Attribute keys are unique, as produced by an XML parser. -/
inductive XElem where
  | mk (tag : String) (attrs : List (String × String)) (children : List XElem)

def XElem.tag : XElem → String
  | .mk t _ _ => t

def XElem.attrs : XElem → List (String × String)
  | .mk _ a _ => a

def XElem.children : XElem → List XElem
  | .mk _ _ c => c

/-- element.get(name): attribute lookup. -/
def XElem.getAttr (e : XElem) (k : String) : Option String := pyLookup e.attrs k

/-- element.find(tag): first direct child with the given tag, if any. -/
def XElem.findTag (e : XElem) (t : String) : Option XElem :=
  e.children.find? (fun c => c.tag == t)

/-- element.findall(tag) / element.iterfind(tag): all direct children with the
given tag, in document order. -/
def XElem.findallTag (e : XElem) (t : String) : List XElem :=
  e.children.filter (fun c => c.tag == t)

/-- ElementTree truthiness of an element: an element tests false when it has
no child elements ("if not properties_element" takes the early return both
when find returned None and when the element has no children). -/
def XElem.isTruthy (e : XElem) : Bool := !e.children.isEmpty

/-! ## Constants from the source -/

def TEST_REPORT_CLIENT_VERSION : Nat × Nat × Nat := (1, 1, 0)

/-- 20e7 bytes; a Python float constant. -/
def MAXIMUM_XML_SIZE : PyF := ⟨200000000, 1⟩

def MAXIMUM_SUMMARY_SIZE : Nat := 1024

/-- size > MAXIMUM_XML_SIZE, for a natural byte size. -/
def sizeExceeds (n : Nat) : Bool := decide (MAXIMUM_XML_SIZE.num < (n : Int) * (MAXIMUM_XML_SIZE.den : Int))

def TESTSUITE_TAG : String := "testsuite"

/-- Declared numeric attribute types. -/
inductive NumType where
  | int
  | float
deriving DecidableEq, Repr

/-- Can the string be converted by the declared numeric type? -/
def NumType.casts : NumType → String → Bool
  | .int, s => (pyInt? s).isSome
  | .float, s => (pyFloat? s).isSome

/-- The required testsuite attributes, in source order (a Python set literal). -/
def REQUIRED_TESTSUITE_ATTRIBUTES : List (String × NumType) :=
  [("time", .float), ("tests", .int), ("skipped", .int), ("failures", .int), ("errors", .int)]

def EXTRA_XML_SUMMARY_ATTRIBUTES : List (String × NumType) := [("xfails", .int)]

def PROPERTIES_TAG : String := "properties"
def PROPERTY_TAG : String := "property"

def REQUIRED_METADATA_PROPERTIES : List String :=
  ["topology", "testbed", "timestamp", "host", "asic", "platform", "hwsku", "os_version"]

def TESTCASE_TAG : String := "testcase"

def REQUIRED_TESTCASE_ATTRIBUTES : List String := ["classname", "file", "line", "name", "time"]

def TESTCASE_PROPERTIES_TAG : String := "properties"
def TESTCASE_PROPERTY_TAG : String := "property"

def REQUIRED_TESTCASE_PROPERTIES : List String := ["start", "end"]

def REQUIRED_TESTCASE_JSON_FIELDS : List String := ["result", "error", "summary"]

/-! ## Document validator -/

/-- Attribute presence and numeric-type checks of _validate_test_summary. -/
def checkSummaryAttrs : List (String × NumType) → XElem → Except String Unit
  | [], _ => .ok ()
  | (f, ty) :: rest, root =>
    match root.getAttr f with
    | none => .error (f ++ " not found in <" ++ TESTSUITE_TAG ++ "> element")
    | some v =>
      if ty.casts v then checkSummaryAttrs rest root
      else .error ("invalid type for " ++ f ++ " in " ++ TESTSUITE_TAG ++
        "> element: expected a number, received \"" ++ v ++ "\"")

/-- _validate_test_summary: root tag and required numeric attributes. -/
def _validate_test_summary (root : XElem) : Except String Unit :=
  if root.tag ≠ TESTSUITE_TAG then
    .error (TESTSUITE_TAG ++ " tag not found on root element")
  else checkSummaryAttrs REQUIRED_TESTSUITE_ATTRIBUTES root

/-- The property-scanning loop shared by the metadata and per-case property
validators: skips nameless/unrecognized properties, rejects duplicates and
missing values, and accumulates the recognized names seen. -/
def scanProps (required : List String) : List XElem → List String → Except String (List String)
  | [], seen => .ok seen
  | p :: rest, seen =>
    match p.getAttr "name" with
    | none => scanProps required rest seen
    | some "" => scanProps required rest seen
    | some n =>
      if ¬ (n ∈ required) then scanProps required rest seen
      else if n ∈ seen then
        .error ("duplicate metadata element: " ++ n ++ " seen more than once")
      else
        match p.getAttr "value" with
        | none => .error ("invalid metadata element: no \"value\" field provided for " ++ n)
        | some _ => scanProps required rest (seen ++ [n])

/-- _validate_test_metadata.  An absent properties element, or one with no
child elements (falsy in ElementTree), returns successfully at once. -/
def _validate_test_metadata (root : XElem) : Except String Unit :=
  match root.findTag PROPERTIES_TAG with
  | none => .ok ()
  | some pe =>
    if !pe.isTruthy then .ok ()
    else
      match scanProps REQUIRED_METADATA_PROPERTIES (pe.findallTag PROPERTY_TAG) [] with
      | .error e => .error e
      | .ok seen =>
        if strictSubsetB seen REQUIRED_METADATA_PROPERTIES then
          .error "missing metadata element(s)"
        else .ok ()

/-- _validate_test_case_properties.  When timing properties are missing the
source computes a bool and then calls list() on it while formatting the
warning, which raises TypeError; that raise is modelled as an error. -/
def _validate_test_case_properties (root : XElem) : Except String Unit :=
  match root.findTag TESTCASE_PROPERTIES_TAG with
  | none => .ok ()
  | some pe =>
    if !pe.isTruthy then .ok ()
    else
      match scanProps REQUIRED_TESTCASE_PROPERTIES (pe.findallTag TESTCASE_PROPERTY_TAG) [] with
      | .error e => .error e
      | .ok seen =>
        if strictSubsetB seen REQUIRED_TESTCASE_PROPERTIES then
          .error "TypeError: \x27bool\x27 object is not iterable"
        else .ok ()

/-- The per-case attribute check of _validate_test_cases._validate_test_case. -/
def checkCaseAttrs : List String → XElem → Except String Unit
  | [], _ => .ok ()
  | a :: rest, tc =>
    match tc.getAttr a with
    | none => .error ("\"" ++ a ++ "\" not found in test case \"" ++
        ((tc.getAttr "name").getD "Name Not Found") ++ "\"")
    | some _ => checkCaseAttrs rest tc

/-- One case of _validate_test_cases. -/
def _validate_test_case (tc : XElem) : Except String Unit :=
  match checkCaseAttrs REQUIRED_TESTCASE_ATTRIBUTES tc with
  | .error e => .error e
  | .ok () => _validate_test_case_properties tc

/-- _validate_test_cases over all direct testcase children. -/
def validateCasesList : List XElem → Except String Unit
  | [] => .ok ()
  | tc :: rest =>
    match _validate_test_case tc with
    | .error e => .error e
    | .ok () => validateCasesList rest

def _validate_test_cases (root : XElem) : Except String Unit :=
  validateCasesList (root.findallTag TESTCASE_TAG)

/-- _validate_junit_xml: summary, then metadata, then cases; returns the root. -/
def _validate_junit_xml (root : XElem) : Except String XElem :=
  match _validate_test_summary root with
  | .error e => .error e
  | .ok () =>
    match _validate_test_metadata root with
    | .error e => .error e
    | .ok () =>
      match _validate_test_cases root with
      | .error e => .error e
      | .ok () => .ok root

/-! ## Entry points (I/O abstracted; tree construction recorded as an event) -/

/-- Marks that an XML tree was constructed from raw bytes. -/
inductive XmlEvent where
  | treeConstruction
deriving DecidableEq, Repr

/-- A raw stream: its byte size and the outcome the XML deserializer would
produce if invoked on it. -/
structure StreamIn where
  size : Nat
  parse : Except String XElem

/-- A file on disk, similarly abstracted. -/
structure FileIn where
  name : String
  exists_ : Bool
  isFile : Bool
  size : Nat
  parse : Except String XElem

/-- validate_junit_xml_stream, paired with the trace of tree constructions. -/
def validate_junit_xml_stream (inp : StreamIn) : Except String XElem × List XmlEvent :=
  if sizeExceeds inp.size then (.error "provided stream is too large", [])
  else
    match inp.parse with
    | .error e => (.error ("could not parse provided XML stream: " ++ e), [.treeConstruction])
    | .ok root => (_validate_junit_xml root, [.treeConstruction])

/-- validate_junit_xml_file, paired with the trace of tree constructions. -/
def validate_junit_xml_file (f : FileIn) : Except String XElem × List XmlEvent :=
  if !f.exists_ || !f.isFile then (.error "file not found", [])
  else if sizeExceeds f.size then (.error "provided file is too large", [])
  else
    match f.parse with
    | .error e => (.error ("could not parse " ++ f.name ++ ": " ++ e), [.treeConstruction])
    | .ok root => (_validate_junit_xml root, [.treeConstruction])

/-! ## Document parser and case classifier -/

abbrev PyDict := List (String × String)

/-- The parsed representation of one test case (the result dict built by
_parse_test_cases._parse_test_case).  The required attributes are copied with
element.get and may in principle be absent; the timing properties are present
only when found; "end" is not a legal Lean name, so that key is end_. -/
structure CaseR where
  classname : Option String
  file : Option String
  line : Option String
  name : Option String
  time : Option String
  start : Option String
  end_ : Option String
  result : String
  summary : String
  error : Bool
deriving DecidableEq, Repr

abbrev CasesDict := List (String × List CaseR)

/-- _parse_test_metadata: properties with a truthy value, in document order.
A property carrying no name at all would be stored by Python under a None
key, which no later lookup in this program observes; such properties are
skipped here. -/
def parsePropsDict (ps : List XElem) : PyDict :=
  ps.foldl
    (fun acc p =>
      match p.getAttr "value" with
      | none => acc
      | some v =>
        if v = "" then acc
        else
          match p.getAttr "name" with
          | none => acc
          | some n => dictSet acc n v)
    []

def _parse_test_metadata (root : XElem) : PyDict :=
  match root.findTag PROPERTIES_TAG with
  | none => []
  | some pe => if !pe.isTruthy then [] else parsePropsDict (pe.findallTag PROPERTY_TAG)

/-- _parse_testcase_properties. -/
def _parse_testcase_properties (tc : XElem) : PyDict :=
  match tc.findTag TESTCASE_PROPERTIES_TAG with
  | none => []
  | some pe => if !pe.isTruthy then [] else parsePropsDict (pe.findallTag TESTCASE_PROPERTY_TAG)

/-- The xfail-marker scan of _parse_test_cases._parse_test_case: the prefix is
"xfail_" when the (truthy) properties element has a property named xfail. -/
def xfailOf (tc : XElem) : String :=
  match tc.findTag PROPERTIES_TAG with
  | none => ""
  | some pe =>
    if !pe.isTruthy then ""
    else if (pe.findallTag PROPERTY_TAG).any (fun p => p.getAttr "name" == some "xfail") then
      "xfail_"
    else ""

/-- _parse_test_cases._parse_test_case: classify one test case node.  The
feature is the leading dotted component of classname (an absent classname
raises AttributeError in Python, modelled as an error). -/
def _parse_test_case (tc : XElem) : Except String (String × CaseR) :=
  match tc.getAttr "classname" with
  | none => .error "AttributeError: \x27NoneType\x27 object has no attribute \x27split\x27"
  | some cn =>
    let feature := (strSplitOn cn '.').headD ""
    let tcProps := _parse_testcase_properties tc
    let xfail_case := xfailOf tc
    let failure := tc.findTag "failure"
    let error := tc.findTag "error"
    let skipped := tc.findTag "skipped"
    let pr : String × String :=
      match failure with
      | some fe => (xfail_case ++ "failure", (fe.getAttr "message").getD "")
      | none =>
        match skipped with
        | some se => (xfail_case ++ "skipped", (se.getAttr "message").getD "")
        | none =>
          match error with
          | some ee => (xfail_case ++ "error", (ee.getAttr "message").getD "")
          | none => (xfail_case ++ "success", "")
    .ok (feature,
      { classname := tc.getAttr "classname"
        file := tc.getAttr "file"
        line := tc.getAttr "line"
        name := tc.getAttr "name"
        time := tc.getAttr "time"
        start := pyLookup tcProps "start"
        end_ := pyLookup tcProps "end"
        result := pr.1
        summary := strTake pr.2 MAXIMUM_SUMMARY_SIZE
        error := error.isSome })

/-- The grouping loop of _parse_test_cases: a defaultdict(list) keyed by
feature, appending each parsed case. -/
def parseCasesList : List XElem → CasesDict → Except String CasesDict
  | [], acc => .ok acc
  | tc :: rest, acc =>
    match _parse_test_case tc with
    | .error e => .error e
    | .ok (feature, r) =>
      parseCasesList rest (dictSet acc feature (((pyLookup acc feature).getD []) ++ [r]))

def _parse_test_cases (root : XElem) : Except String CasesDict :=
  parseCasesList (root.findallTag "testcase") []

/-! ## Summary extraction and the three merge operations -/

/-- The six counters accumulated by _extract_test_summary before they are
re-emitted as strings. -/
structure SumNums where
  tests : Nat
  failures : Nat
  skipped : Nat
  errors : Nat
  time : PyF
  xfails : Nat
deriving DecidableEq, Repr

def SumNums.zero : SumNums := ⟨0, 0, 0, 0, PyF.zero, 0⟩

/-- float(case["time"]): a missing attribute is a Python TypeError, an
unparsable string a ValueError. -/
def pyFloatOfOpt (o : Option String) : Except String PyF :=
  match o with
  | none => .error "TypeError: float() argument must be a string or a number, not NoneType"
  | some s =>
    match pyFloat? s with
    | some q => .ok q
    | none => .error ("could not convert string to float: " ++ s)

/-- The per-case accumulation loop of _extract_test_summary (bools count as
ints when added, as in Python). -/
def extractNums : List CaseR → SumNums → Except String SumNums
  | [], acc => .ok acc
  | c :: rest, acc =>
    match pyFloatOfOpt c.time with
    | .error e => .error e
    | .ok t =>
      extractNums rest
        { tests := acc.tests + 1
          failures := acc.failures + (if c.result == "failure" || c.result == "error" then 1 else 0)
          skipped := acc.skipped + (if c.result == "skipped" then 1 else 0)
          errors := acc.errors + (if c.error then 1 else 0)
          time := acc.time.add t
          xfails := acc.xfails +
            (if c.result == "xfail_failure" || c.result == "xfail_error" ||
                c.result == "xfail_skipped" || c.result == "xfail_success" then 1 else 0) }

/-- The cases of a feature dict in iteration order. -/
def flattenCases (d : CasesDict) : List CaseR :=
  d.foldr (fun p acc => p.2 ++ acc) []

/-- Render the accumulated counters as the string dict _extract_test_summary
returns; with no cases the defaultdict is never touched and stays empty. -/
def renderExtract (anyCase : Bool) (n : SumNums) : PyDict :=
  if anyCase then
    [("tests", natToStr n.tests), ("failures", natToStr n.failures),
     ("skipped", natToStr n.skipped), ("errors", natToStr n.errors),
     ("time", qDecStr n.time), ("xfails", natToStr n.xfails)]
  else []

def _extract_test_summary (d : CasesDict) : Except String PyDict :=
  match extractNums (flattenCases d) SumNums.zero with
  | .error e => .error e
  | .ok n => .ok (renderExtract (!(flattenCases d).isEmpty) n)

/-- attr_type(d.get(k, 0)) for an int field: a missing key contributes the
int 0 directly; a present value is parsed by int(). -/
def getIntEntry (d : PyDict) (k : String) : Except String Int :=
  match pyLookup d k with
  | none => .ok 0
  | some s =>
    match pyInt? s with
    | some n => .ok n
    | none => .error ("invalid literal for int() with base 10: " ++ s)

/-- attr_type(d.get(k, 0)) for a float field. -/
def getFloatEntry (d : PyDict) (k : String) : Except String PyF :=
  match pyLookup d k with
  | none => .ok PyF.zero
  | some s =>
    match pyFloat? s with
    | some q => .ok q
    | none => .error ("could not convert string to float: " ++ s)

/-- _update_test_summary.  On the first fold the update is copied verbatim;
afterwards every declared field is parsed by its declared type from both
sides, summed, rounded to three decimal places (the identity on ints) and
re-emitted as a string.  The field order follows the iteration order of the
source's set literals. -/
def _update_test_summary (current update : PyDict) : Except String PyDict :=
  if current.isEmpty then .ok update
  else
    match getFloatEntry current "time" with
    | .error e => .error e
    | .ok tc =>
      match getFloatEntry update "time" with
      | .error e => .error e
      | .ok tu =>
        match getIntEntry current "tests" with
        | .error e => .error e
        | .ok nc =>
          match getIntEntry update "tests" with
          | .error e => .error e
          | .ok nu =>
            match getIntEntry current "skipped" with
            | .error e => .error e
            | .ok sc =>
              match getIntEntry update "skipped" with
              | .error e => .error e
              | .ok su =>
                match getIntEntry current "failures" with
                | .error e => .error e
                | .ok fc =>
                  match getIntEntry update "failures" with
                  | .error e => .error e
                  | .ok fu =>
                    match getIntEntry current "errors" with
                    | .error e => .error e
                    | .ok ec =>
                      match getIntEntry update "errors" with
                      | .error e => .error e
                      | .ok eu =>
                        match getIntEntry current "xfails" with
                        | .error e => .error e
                        | .ok xc =>
                          match getIntEntry update "xfails" with
                          | .error e => .error e
                          | .ok xu =>
                            .ok [("time", qDecStr (pyRound3 (tc.add tu))),
                                 ("tests", intToStr (nc + nu)),
                                 ("skipped", intToStr (sc + su)),
                                 ("failures", intToStr (fc + fu)),
                                 ("errors", intToStr (ec + eu)),
                                 ("xfails", intToStr (xc + xu))]

/-- _update_test_metadata's per-property loop (case 3): the timestamp becomes
str(min(..)) of the two parsed timestamps, every other required property is
taken from the update; a missing key raises KeyError, an unparsable timestamp
raises ValueError. -/
def metaMergeProps : List String → PyDict → PyDict → PyDict → Except String PyDict
  | [], _, _, acc => .ok acc
  | p :: rest, cur, upd, acc =>
    if p = "timestamp" then
      match pyLookup cur p with
      | none => .error ("KeyError: \x27" ++ p ++ "\x27")
      | some tcs =>
        match pyLookup upd p with
        | none => .error ("KeyError: \x27" ++ p ++ "\x27")
        | some tus =>
          match strptimeFixed tcs with
          | none => .error ("ValueError: time data \x27" ++ tcs ++
              "\x27 does not match format \x27%Y-%m-%d %H:%M:%S.%f\x27")
          | some dc =>
            match strptimeFixed tus with
            | none => .error ("ValueError: time data \x27" ++ tus ++
                "\x27 does not match format \x27%Y-%m-%d %H:%M:%S.%f\x27")
            | some du => metaMergeProps rest cur upd (acc ++ [(p, dtStr (pyMinDT dc du))])
    else
      match pyLookup upd p with
      | none => .error ("KeyError: \x27" ++ p ++ "\x27")
      | some v => metaMergeProps rest cur upd (acc ++ [(p, v)])

/-- _update_test_metadata. -/
def _update_test_metadata (current update : PyDict) : Except String PyDict :=
  if current.isEmpty then .ok update
  else if update.isEmpty then .ok current
  else metaMergeProps REQUIRED_METADATA_PROPERTIES current update []

/-- _update_test_cases: for each feature in the update, the incoming cases
followed by the previously aggregated cases for that feature. -/
def _update_test_cases (current update : CasesDict) : CasesDict :=
  if current.isEmpty then update
  else
    update.foldl
      (fun nc gp => dictSet nc gp.1 (gp.2 ++ ((pyLookup nc gp.1).getD [])))
      current

/-! ## parse_test_result: the aggregator fold -/

/-- One step of parse_test_result's loop over validated roots, threading the
(metadata, cases, summary) accumulator. -/
def parse_go : List XElem → PyDict × CasesDict × PyDict →
    Except String (PyDict × CasesDict × PyDict)
  | [], st => .ok st
  | r :: rest, (md, cs, sm) =>
    match _update_test_metadata md (_parse_test_metadata r) with
    | .error e => .error e
    | .ok md' =>
      match _parse_test_cases r with
      | .error e => .error e
      | .ok tc =>
        let cs' := _update_test_cases cs tc
        match _extract_test_summary tc with
        | .error e => .error e
        | .ok ex =>
          match _update_test_summary sm ex with
          | .error e => .error e
          | .ok sm' => parse_go rest (md', cs', sm')

/-- parse_test_result: None for an empty root list, otherwise the fold of the
three merge operations starting from empty accumulators. -/
def parse_test_result (roots : List XElem) :
    Except String (Option (PyDict × CasesDict × PyDict)) :=
  if roots.isEmpty then .ok none
  else
    match parse_go roots ([], [], []) with
    | .error e => .error e
    | .ok st => .ok (some st)

/-! ## Archive validation -/

/-- One input of validate_junit_xml_archive: a discovered document. -/
structure ArchiveDoc where
  name : String
  file : FileIn

/-- The metadata a document contributes to the archive consistency check:
required keys other than the timestamp. -/
def archiveMetadataOf (root : XElem) : PyDict :=
  (_parse_test_metadata root).filter
    (fun kv => kv.1 ∈ REQUIRED_METADATA_PROPERTIES && kv.1 ≠ "timestamp")

/-- The conflict message raised when a document's metadata differs from the
first metadata-bearing document seen. -/
def archiveConflictMsg (docName srcName : String) (rm meta : PyDict) : String :=
  docName ++ " metadata differs from " ++ srcName ++ "\n" ++
    docName ++ ": " ++ dictRepr rm ++ "\n" ++ srcName ++ ": " ++ dictRepr meta

/-- The per-document loop of validate_junit_xml_archive.  Every exception of
the body — including the metadata-conflict one — is caught; in strict mode it
is re-raised wrapped in "could not parse", in lenient mode the document is
skipped. -/
def archiveLoop : List ArchiveDoc → Bool → List XElem → Option String → PyDict →
    Except String (List XElem)
  | [], _, roots, _, _ => .ok roots
  | d :: rest, strict, roots, msrc, meta =>
    match (validate_junit_xml_file d.file).1 with
    | .error e =>
      if strict then .error ("could not parse " ++ d.name ++ ": " ++ e)
      else archiveLoop rest strict roots msrc meta
    | .ok root =>
      let rm := archiveMetadataOf root
      if rm.isEmpty then archiveLoop rest strict (roots ++ [root]) msrc meta
      else
        let src := msrc.getD d.name
        let meta' := if msrc.isSome then meta else rm
        if dictBeq rm meta' then archiveLoop rest strict (roots ++ [root]) (some src) meta'
        else
          if strict then
            .error ("could not parse " ++ d.name ++ ": " ++
              archiveConflictMsg d.name src rm meta')
          else archiveLoop rest strict roots (some src) meta'

/-- validate_junit_xml_archive: directory discovery abstracted to the list of
candidate documents; the combined byte size is bounded by the single-document
ceiling before any document is validated. -/
def validate_junit_xml_archive (docs : List ArchiveDoc) (strict : Bool) :
    Except String (List XElem) :=
  if sizeExceeds (docs.map (fun d => d.file.size)).sum then
    .error "provided directory is too large"
  else archiveLoop docs strict [] none []

/-! ## The summary component of the aggregator fold, in isolation -/

/-- The summary part of one parse_test_result step. -/
def sumStep (acc : PyDict) (r : XElem) : Except String PyDict :=
  match _parse_test_cases r with
  | .error e => .error e
  | .ok tc =>
    match _extract_test_summary tc with
    | .error e => .error e
    | .ok ex => _update_test_summary acc ex

def sumFoldFrom (acc : PyDict) : List XElem → Except String PyDict
  | [] => .ok acc
  | r :: rest =>
    match sumStep acc r with
    | .error e => .error e
    | .ok a => sumFoldFrom a rest

/-- The five integer counters of a summary. -/
structure IntNums where
  tests : Nat
  failures : Nat
  skipped : Nat
  errors : Nat
  xfails : Nat
deriving DecidableEq, Repr

def IntNums.zero : IntNums := ⟨0, 0, 0, 0, 0⟩

def IntNums.add (a b : IntNums) : IntNums :=
  ⟨a.tests + b.tests, a.failures + b.failures, a.skipped + b.skipped,
   a.errors + b.errors, a.xfails + b.xfails⟩

/-- The counters extracted from one document's cases. -/
def rootSummaryNums (r : XElem) : Except String SumNums :=
  match _parse_test_cases r with
  | .error e => .error e
  | .ok tc => extractNums (flattenCases tc) SumNums.zero

/-- The integer counters one document contributes (zero when its extraction
fails; only used under hypotheses that rule the failure out). -/
def rootIntNums (r : XElem) : IntNums :=
  match rootSummaryNums r with
  | .ok n => ⟨n.tests, n.failures, n.skipped, n.errors, n.xfails⟩
  | .error _ => IntNums.zero

def listIntSum (l : List XElem) : IntNums :=
  l.foldr (fun r acc => (rootIntNums r).add acc) IntNums.zero

/-- Invariant of the summary fold: the accumulator is either still the empty
dict with nothing counted, or its five integer fields are the decimal strings
of the exact counter sums so far (with at least one test seen). -/
def SumInv (acc : PyDict) (v : IntNums) : Prop :=
  (acc = [] ∧ v = IntNums.zero) ∨
  (pyLookup acc "tests" = some (natToStr v.tests) ∧
   pyLookup acc "failures" = some (natToStr v.failures) ∧
   pyLookup acc "skipped" = some (natToStr v.skipped) ∧
   pyLookup acc "errors" = some (natToStr v.errors) ∧
   pyLookup acc "xfails" = some (natToStr v.xfails) ∧ 0 < v.tests)

/-! ## The metadata component of the aggregator fold, in isolation -/

def metaFoldFrom (acc : PyDict) : List PyDict → Except String PyDict
  | [] => .ok acc
  | m :: rest =>
    match _update_test_metadata acc m with
    | .error e => .error e
    | .ok a => metaFoldFrom a rest

/-- Folding _update_test_metadata over per-document metadata, as
parse_test_result does starting from the empty dict. -/
def metaFold (ms : List PyDict) : Except String PyDict := metaFoldFrom [] ms

/-! ## Claim-side (specification-worded) definitions -/

/-- Spec wording: a marker node with this tag is present among the children. -/
def hasMarkerChild (tc : XElem) (t : String) : Bool := (tc.findTag t).isSome

/-- Spec wording: an xfail marker property is present among the case's
properties. -/
def hasXfailMarker (tc : XElem) : Bool :=
  match tc.findTag PROPERTIES_TAG with
  | none => false
  | some pe => (pe.findallTag PROPERTY_TAG).any (fun p => p.getAttr "name" == some "xfail")

/-- The result label as the specification words it: the xfail prefix exactly
when an xfail marker property is present, then failure / skipped / error /
success by fixed first-match-wins precedence on marker children. -/
def resultLabelSpec (tc : XElem) : String :=
  (if hasXfailMarker tc then "xfail_" else "") ++
    (if hasMarkerChild tc "failure" then "failure"
     else if hasMarkerChild tc "skipped" then "skipped"
     else if hasMarkerChild tc "error" then "error"
     else "success")

/-- C3's claimed failures count: cases whose result is failure- or
error-classified or whose error flag is set. -/
def claimC3Failures (d : CasesDict) : Nat :=
  (flattenCases d).countP (fun c => c.result == "failure" || c.result == "error" || c.error)

/-! ## Concrete example inputs -/

/-- A test case with an xfail marker property and a skipped child. -/
def exCaseXfailSkip : XElem :=
  .mk "testcase"
    [("classname", "featA.TestClass"), ("file", "test_a.py"), ("line", "10"),
     ("name", "test_one"), ("time", "0.5")]
    [.mk "properties" [] [.mk "property" [("name", "xfail"), ("value", "known issue")] []],
     .mk "skipped" [("message", "skip reason")] []]

def exCaseXfailSkipR : CaseR :=
  { classname := some "featA.TestClass", file := some "test_a.py", line := some "10",
    name := some "test_one", time := some "0.5", start := none, end_ := none,
    result := "xfail_skipped", summary := "skip reason", error := false }

/-- A test case with both a failure child and an error child, no xfail. -/
def exCaseFailErr : XElem :=
  .mk "testcase"
    [("classname", "featB.TestClass"), ("file", "test_b.py"), ("line", "20"),
     ("name", "test_two"), ("time", "1.0")]
    [.mk "failure" [("message", "assert failed")] [],
     .mk "error" [("message", "teardown error")] []]

def exCaseFailErrR : CaseR :=
  { classname := some "featB.TestClass", file := some "test_b.py", line := some "20",
    name := some "test_two", time := some "1.0", start := none, end_ := none,
    result := "failure", summary := "assert failed", error := true }

/-- A test case with a skipped child and an error child: result "skipped"
with the error flag set. -/
def exCaseSkipErr : XElem :=
  .mk "testcase"
    [("classname", "featC.TestClass"), ("file", "test_c.py"), ("line", "30"),
     ("name", "test_three"), ("time", "1.0")]
    [.mk "skipped" [("message", "skipped msg")] [],
     .mk "error" [("message", "setup error")] []]

def exCaseSkipErrR : CaseR :=
  { classname := some "featC.TestClass", file := some "test_c.py", line := some "30",
    name := some "test_three", time := some "1.0", start := none, end_ := none,
    result := "skipped", summary := "skipped msg", error := true }

def exC3Dict : CasesDict := [("featC", [exCaseSkipErrR])]

/-- Two distinguishable already-parsed cases for the case-merge ordering. -/
def exCaseOne : CaseR :=
  { classname := some "feat.C", file := some "f.py", line := some "1",
    name := some "first_doc_case", time := some "1.0", start := none, end_ := none,
    result := "success", summary := "", error := false }

def exCaseTwo : CaseR :=
  { exCaseOne with name := some "second_doc_case" }

def exCurCases : CasesDict := [("feat", [exCaseOne])]
def exUpdCases : CasesDict := [("feat", [exCaseTwo])]

/-- The metadata property elements of a document, with a chosen testbed. -/
def mkMetaProps (tb : String) : List XElem :=
  [.mk "property" [("name", "topology"), ("value", "t0")] [],
   .mk "property" [("name", "testbed"), ("value", tb)] [],
   .mk "property" [("name", "timestamp"), ("value", "2021-01-01 00:00:00.500000")] [],
   .mk "property" [("name", "host"), ("value", "dut")] [],
   .mk "property" [("name", "asic"), ("value", "vs")] [],
   .mk "property" [("name", "platform"), ("value", "x86")] [],
   .mk "property" [("name", "hwsku"), ("value", "sku")] [],
   .mk "property" [("name", "os_version"), ("value", "202012")] []]

/-- A fully valid testsuite document with the given testbed and no cases. -/
def mkArchiveRoot (tb : String) : XElem :=
  .mk "testsuite"
    [("time", "1.0"), ("tests", "0"), ("skipped", "0"), ("failures", "0"), ("errors", "0")]
    [.mk "properties" [] (mkMetaProps tb)]

def exArchDocA : ArchiveDoc :=
  { name := "a_test.xml",
    file := { name := "a_test.xml", exists_ := true, isFile := true, size := 100,
              parse := .ok (mkArchiveRoot "lab1") } }

def exArchDocB : ArchiveDoc :=
  { name := "b_test.xml",
    file := { name := "b_test.xml", exists_ := true, isFile := true, size := 100,
              parse := .ok (mkArchiveRoot "lab2") } }

/-- The two per-document summaries of the specification's merge example. -/
def exSumA : PyDict :=
  [("tests", "5"), ("failures", "1"), ("skipped", "0"), ("errors", "0"),
   ("time", "1.234"), ("xfails", "0")]

def exSumB : PyDict :=
  [("tests", "5"), ("failures", "1"), ("skipped", "0"), ("errors", "0"),
   ("time", "2.000"), ("xfails", "0")]

/-- A document with a single test case with the given elapsed time. -/
def mkTimeDoc (t : String) : XElem :=
  .mk "testsuite" []
    [.mk "testcase"
      [("classname", "feat.C"), ("file", "f.py"), ("line", "1"), ("name", "t"), ("time", t)] []]

def exDoc7A : XElem := mkTimeDoc "0.0004"
def exDoc7B : XElem := mkTimeDoc "0.0004"
def exDoc7C : XElem := mkTimeDoc "0"

/-- A full metadata dict with a chosen timestamp. -/
def mkMetaDict (ts : String) : PyDict :=
  [("topology", "t0"), ("testbed", "vms-kvm"), ("timestamp", ts), ("host", "dut"),
   ("asic", "vs"), ("platform", "x86"), ("hwsku", "sku"), ("os_version", "202012")]

def exMeta1 : PyDict := mkMetaDict "2021-01-01 00:00:00.000000"
def exMeta2 : PyDict := mkMetaDict "2021-01-02 10:00:00.500000"
def exMeta3 : PyDict := mkMetaDict "2021-01-03 10:00:00.500000"

def exStreamBig : StreamIn := { size := 300000000, parse := .ok (.mk "testsuite" [] []) }

def exFileBig : FileIn :=
  { name := "big_test.xml", exists_ := true, isFile := true, size := 300000000,
    parse := .ok (.mk "testsuite" [] []) }

/-- A valid testsuite carrying no properties element at all. -/
def exRootNoProps : XElem :=
  .mk "testsuite"
    [("time", "1.0"), ("tests", "0"), ("skipped", "0"), ("failures", "0"), ("errors", "0")] []

/-- The parsed case of mkTimeDoc with the given elapsed time. -/
def exCaseT (t : String) : CaseR :=
  { classname := some "feat.C", file := some "f.py", line := some "1", name := some "t",
    time := some t, start := none, end_ := none, result := "success", summary := "",
    error := false }

/-- parse_test_result of the two-document list [exDoc7A, exDoc7C]. -/
def exSt7AC : PyDict × CasesDict × PyDict :=
  ([], [("feat", [exCaseT "0", exCaseT "0.0004"])],
   [("time", "0.0"), ("tests", "2"), ("skipped", "0"), ("failures", "0"), ("errors", "0"),
    ("xfails", "0")])

/-- parse_test_result of the two-document list [exDoc7C, exDoc7A]. -/
def exSt7CA : PyDict × CasesDict × PyDict :=
  ([], [("feat", [exCaseT "0.0004", exCaseT "0"])],
   [("time", "0.0"), ("tests", "2"), ("skipped", "0"), ("failures", "0"), ("errors", "0"),
    ("xfails", "0")])

/-! ## Helper lemmas: decimal round trips -/

theorem digitChar_isDigit {d : Nat} (h : d < 10) : (digitChar d).isDigit = true := by
  interval_cases d <;> decide

theorem digitChar_val {d : Nat} (h : d < 10) : (digitChar d).toNat - 48 = d := by
  interval_cases d <;> decide

theorem natDigsAux_spec : ∀ fuel n, n < fuel →
    natDigsAux fuel n ≠ [] ∧ (natDigsAux fuel n).all Char.isDigit = true ∧
    ∀ a : Nat, (natDigsAux fuel n).foldl (fun x c => 10 * x + (c.toNat - 48)) a =
      a * 10 ^ (natDigsAux fuel n).length + n := by
  intro fuel
  induction fuel with
  | zero => intro n hn; exact absurd hn (Nat.not_lt_zero n)
  | succ fuel ih =>
    intro n hn
    by_cases h10 : n < 10
    · refine ⟨by simp [natDigsAux, h10], by simp [natDigsAux, h10, digitChar_isDigit h10], ?_⟩
      intro a
      simp [natDigsAux, h10, digitChar_val h10]
      omega
    · have hge : 10 ≤ n := Nat.le_of_not_lt h10
      have hdiv : n / 10 < fuel := by
        have h1 : n / 10 < n := Nat.div_lt_self (by omega) (by omega)
        omega
      obtain ⟨ihne, ihall, ihfold⟩ := ih (n / 10) hdiv
      have hmod : n % 10 < 10 := Nat.mod_lt n (by omega)
      refine ⟨by simp [natDigsAux, h10], ?_, ?_⟩
      · simp [natDigsAux, h10, List.all_append, ihall, digitChar_isDigit hmod]
      · intro a
        simp only [natDigsAux, if_neg h10, List.foldl_append, List.length_append,
          List.foldl_cons, List.foldl_nil, List.length_cons, List.length_nil]
        rw [ihfold a, digitChar_val hmod, pow_succ, ← mul_assoc]
        generalize a * 10 ^ (natDigsAux fuel (n / 10)).length = M
        omega

theorem pyIntChars_natDigs (n : Nat) : pyIntChars (natDigsAux (n+1) n) = some (n : Int) := by
  obtain ⟨hne, hall, hfold⟩ := natDigsAux_spec (n+1) n (Nat.lt_succ_self n)
  have hval : digitsValN (natDigsAux (n+1) n) = n := by
    have := hfold 0
    simpa [digitsValN] using this
  cases hl : natDigsAux (n+1) n with
  | nil => exact absurd hl hne
  | cons c cs =>
    rw [hl] at hall hval
    have hcd : c.isDigit = true := by
      rw [List.all_cons, Bool.and_eq_true] at hall
      exact hall.1
    have hcne : ¬ (c = '-') := by
      intro hc
      rw [hc] at hcd
      exact absurd hcd (by decide)
    simp [pyIntChars, hcne, parseNatDigits, hall, hval]

theorem pyInt?_natToStr (n : Nat) : pyInt? (natToStr n) = some (n : Int) := by
  have : pyInt? (natToStr n) = pyIntChars (natDigsAux (n+1) n) := rfl
  rw [this, pyIntChars_natDigs]

theorem intToStr_natCast (a b : Nat) : intToStr ((a : Int) + (b : Int)) = natToStr (a + b) := by
  have h1 : ((a : Int) + (b : Int)) = ((a + b : Nat) : Int) := by push_cast; ring
  rw [h1, intToStr, if_neg (by omega), Int.natAbs_ofNat]

theorem getIntEntry_natToStr {d : PyDict} {k : String} {m : Nat}
    (h : pyLookup d k = some (natToStr m)) : getIntEntry d k = .ok (m : Int) := by
  simp [getIntEntry, h, pyInt?_natToStr]

/-! ## Helper lemmas: summary extraction counts -/

theorem extractNums_counts : ∀ (l : List CaseR) (z n : SumNums), extractNums l z = .ok n →
    n.tests = z.tests + l.length ∧
    n.failures = z.failures + l.countP (fun c => c.result == "failure" || c.result == "error") ∧
    n.skipped = z.skipped + l.countP (fun c => c.result == "skipped") ∧
    n.errors = z.errors + l.countP (fun c => c.error) ∧
    n.xfails = z.xfails + l.countP (fun c =>
      c.result == "xfail_failure" || c.result == "xfail_error" ||
      c.result == "xfail_skipped" || c.result == "xfail_success") := by
  intro l
  induction l with
  | nil =>
    intro z n h
    simp only [extractNums, Except.ok.injEq] at h
    subst h
    simp
  | cons c rest ih =>
    intro z n h
    simp only [extractNums] at h
    cases ht : pyFloatOfOpt c.time with
    | error e => rw [ht] at h; exact absurd h (by simp)
    | ok t =>
      rw [ht] at h
      obtain ⟨e1, e2, e3, e4, e5⟩ := ih _ n h
      simp only at e1 e2 e3 e4 e5
      refine ⟨?_, ?_, ?_, ?_, ?_⟩
      · simp only [List.length_cons]; omega
      · rw [List.countP_cons]
        cases hb : (c.result == "failure" || c.result == "error") <;>
          simp [hb] at e2 ⊢ <;> omega
      · rw [List.countP_cons]
        cases hb : (c.result == "skipped") <;> simp [hb] at e3 ⊢ <;> omega
      · rw [List.countP_cons]
        cases hb : c.error <;> simp [hb] at e4 ⊢ <;> omega
      · rw [List.countP_cons]
        cases hb : (c.result == "xfail_failure" || c.result == "xfail_error" ||
            c.result == "xfail_skipped" || c.result == "xfail_success") <;>
          simp [hb] at e5 ⊢ <;> omega

/-! ## Helper lemmas: the summary-fold invariant -/

theorem SumInv.intEntries {d : PyDict} {w : IntNums} (h : SumInv d w) :
    getIntEntry d "tests" = .ok (w.tests : Int) ∧
    getIntEntry d "failures" = .ok (w.failures : Int) ∧
    getIntEntry d "skipped" = .ok (w.skipped : Int) ∧
    getIntEntry d "errors" = .ok (w.errors : Int) ∧
    getIntEntry d "xfails" = .ok (w.xfails : Int) := by
  rcases h with ⟨rfl, rfl⟩ | ⟨h1, h2, h3, h4, h5, _⟩
  · exact ⟨rfl, rfl, rfl, rfl, rfl⟩
  · exact ⟨getIntEntry_natToStr h1, getIntEntry_natToStr h2, getIntEntry_natToStr h3,
      getIntEntry_natToStr h4, getIntEntry_natToStr h5⟩

theorem IntNums.zero_add (c : IntNums) : IntNums.zero.add c = c := by
  cases c; simp [IntNums.add, IntNums.zero]

theorem IntNums.add_zero (c : IntNums) : c.add IntNums.zero = c := by
  cases c; simp [IntNums.add, IntNums.zero]

theorem IntNums.add_assoc (x y z : IntNums) : (x.add y).add z = x.add (y.add z) := by
  cases x; cases y; cases z; simp [IntNums.add]; omega

theorem update_summary_inv {acc ex acc' : PyDict} {v c : IntNums}
    (hacc : SumInv acc v) (hex : SumInv ex c)
    (h : _update_test_summary acc ex = .ok acc') : SumInv acc' (v.add c) := by
  rcases hacc with ⟨rfl, rfl⟩ | ⟨h1, h2, h3, h4, h5, hpos⟩
  · have hx : acc' = ex := by
      simp [_update_test_summary] at h
      exact h.symm
    subst hx
    rw [IntNums.zero_add]
    exact hex
  · have hne : acc.isEmpty = false := by
      cases acc with
      | nil => simp [pyLookup] at h1
      | cons p l => rfl
    obtain ⟨g1, g2, g3, g4, g5⟩ :=
      SumInv.intEntries (Or.inr ⟨h1, h2, h3, h4, h5, hpos⟩)
    obtain ⟨e1, e2, e3, e4, e5⟩ := SumInv.intEntries hex
    unfold _update_test_summary at h
    rw [hne] at h
    simp only [Bool.false_eq_true, if_false] at h
    cases hft : getFloatEntry acc "time" with
    | error e => simp only [hft] at h; exact absurd h (by simp)
    | ok tc =>
      cases hfu : getFloatEntry ex "time" with
      | error e => simp only [hft, hfu] at h; exact absurd h (by simp)
      | ok tu =>
        simp only [hft, hfu, g1, g2, g3, g4, g5, e1, e2, e3, e4, e5,
          Except.ok.injEq] at h
        subst h
        right
        refine ⟨?_, ?_, ?_, ?_, ?_, ?_⟩
        · simp [pyLookup, intToStr_natCast, IntNums.add]
        · simp [pyLookup, intToStr_natCast, IntNums.add]
        · simp [pyLookup, intToStr_natCast, IntNums.add]
        · simp [pyLookup, intToStr_natCast, IntNums.add]
        · simp [pyLookup, intToStr_natCast, IntNums.add]
        · simp [IntNums.add]; omega

theorem sumFold_inv : ∀ (l : List XElem) (acc : PyDict) (v : IntNums) (s : PyDict),
    SumInv acc v → sumFoldFrom acc l = .ok s → SumInv s (v.add (listIntSum l)) := by
  intro l
  induction l with
  | nil =>
    intro acc v s hInv hfold
    simp only [sumFoldFrom, Except.ok.injEq] at hfold
    subst hfold
    simpa [listIntSum, IntNums.add_zero] using hInv
  | cons r rest ih =>
    intro acc v s hInv hfold
    simp only [sumFoldFrom] at hfold
    cases hstep : sumStep acc r with
    | error e => rw [hstep] at hfold; exact absurd hfold (by simp)
    | ok a =>
      rw [hstep] at hfold
      unfold sumStep at hstep
      cases hpc : _parse_test_cases r with
      | error e => simp only [hpc] at hstep; exact absurd hstep (by simp)
      | ok tc =>
        cases hex : _extract_test_summary tc with
        | error e => simp only [hpc, hex] at hstep; exact absurd hstep (by simp)
        | ok ex =>
          simp only [hpc, hex] at hstep
          unfold _extract_test_summary at hex
          cases hen : extractNums (flattenCases tc) SumNums.zero with
          | error e => simp only [hen] at hex; exact absurd hex (by simp)
          | ok nn =>
            simp only [hen, Except.ok.injEq] at hex
            have hri : rootIntNums r = ⟨nn.tests, nn.failures, nn.skipped, nn.errors, nn.xfails⟩ := by
              simp [rootIntNums, rootSummaryNums, hpc, hen]
            obtain ⟨e1, e2, e3, e4, e5⟩ := extractNums_counts _ _ _ hen
            have hexInv : SumInv ex (rootIntNums r) := by
              cases hflat : flattenCases tc with
              | nil =>
                left
                rw [hflat] at hex
                constructor
                · rw [← hex]; rfl
                · rw [hflat] at e1 e2 e3 e4 e5
                  simp only [List.length_nil, List.countP_nil] at e1 e2 e3 e4 e5
                  rw [hri]
                  simp only [IntNums.zero, IntNums.mk.injEq]
                  refine ⟨?_, ?_, ?_, ?_, ?_⟩ <;> simp [SumNums.zero] at e1 e2 e3 e4 e5 <;> omega
              | cons c0 l0 =>
                right
                rw [hflat] at hex
                simp only [renderExtract, List.isEmpty_cons, Bool.not_false, if_true] at hex
                rw [← hex, hri]
                refine ⟨rfl, rfl, rfl, rfl, rfl, ?_⟩
                rw [hflat] at e1
                simp [SumNums.zero] at e1
                simp only []
                omega
            have hInvA : SumInv a (v.add (rootIntNums r)) := update_summary_inv hInv hexInv hstep
            have hres := ih a (v.add (rootIntNums r)) s hInvA hfold
            have hl : listIntSum (r :: rest) = (rootIntNums r).add (listIntSum rest) := rfl
            rw [hl, ← IntNums.add_assoc]
            exact hres

theorem parse_go_proj : ∀ (l : List XElem) (md : PyDict) (cs : CasesDict) (sm : PyDict)
    (st : PyDict × CasesDict × PyDict),
    parse_go l (md, cs, sm) = .ok st → sumFoldFrom sm l = .ok st.2.2 := by
  intro l
  induction l with
  | nil =>
    intro md cs sm st h
    simp only [parse_go, Except.ok.injEq] at h
    rw [← h]
    rfl
  | cons r rest ih =>
    intro md cs sm st h
    simp only [parse_go] at h
    cases hmd : _update_test_metadata md (_parse_test_metadata r) with
    | error e => simp only [hmd] at h; exact absurd h (by simp)
    | ok md' =>
      cases hpc : _parse_test_cases r with
      | error e => simp only [hmd, hpc] at h; exact absurd h (by simp)
      | ok tc =>
        cases hex : _extract_test_summary tc with
        | error e => simp only [hmd, hpc, hex] at h; exact absurd h (by simp)
        | ok ex =>
          cases hup : _update_test_summary sm ex with
          | error e => simp only [hmd, hpc, hex, hup] at h; exact absurd h (by simp)
          | ok sm' =>
            simp only [hmd, hpc, hex, hup] at h
            have hstep : sumStep sm r = .ok sm' := by
              simp [sumStep, hpc, hex, hup]
            simp only [sumFoldFrom, hstep]
            exact ih md' _ sm' st h

theorem parse_result_proj {l : List XElem} {st : PyDict × CasesDict × PyDict}
    (h : parse_test_result l = .ok (some st)) : sumFoldFrom [] l = .ok st.2.2 := by
  unfold parse_test_result at h
  cases he : l.isEmpty with
  | true => rw [he] at h; exact absurd h (by simp)
  | false =>
    rw [he] at h
    simp only [Bool.false_eq_true, if_false] at h
    cases hg : parse_go l ([], [], []) with
    | error e => rw [hg] at h; exact absurd h (by simp)
    | ok st' =>
      rw [hg] at h
      simp only [Except.ok.injEq, Option.some.injEq] at h
      subst h
      exact parse_go_proj l [] [] [] st' hg

/-! ## Helper lemmas: permutation invariance of the integer counters -/

theorem IntNums.eq_of_fields {a b : IntNums} (h1 : a.tests = b.tests)
    (h2 : a.failures = b.failures) (h3 : a.skipped = b.skipped)
    (h4 : a.errors = b.errors) (h5 : a.xfails = b.xfails) : a = b := by
  cases a; cases b; simp_all

theorem listIntSum_tests (l : List XElem) :
    (listIntSum l).tests = (l.map (fun r => (rootIntNums r).tests)).sum := by
  induction l with
  | nil => rfl
  | cons r rest ih => simp [listIntSum, IntNums.add, List.sum_cons] at ih ⊢; omega

theorem listIntSum_failures (l : List XElem) :
    (listIntSum l).failures = (l.map (fun r => (rootIntNums r).failures)).sum := by
  induction l with
  | nil => rfl
  | cons r rest ih => simp [listIntSum, IntNums.add, List.sum_cons] at ih ⊢; omega

theorem listIntSum_skipped (l : List XElem) :
    (listIntSum l).skipped = (l.map (fun r => (rootIntNums r).skipped)).sum := by
  induction l with
  | nil => rfl
  | cons r rest ih => simp [listIntSum, IntNums.add, List.sum_cons] at ih ⊢; omega

theorem listIntSum_errors (l : List XElem) :
    (listIntSum l).errors = (l.map (fun r => (rootIntNums r).errors)).sum := by
  induction l with
  | nil => rfl
  | cons r rest ih => simp [listIntSum, IntNums.add, List.sum_cons] at ih ⊢; omega

theorem listIntSum_xfails (l : List XElem) :
    (listIntSum l).xfails = (l.map (fun r => (rootIntNums r).xfails)).sum := by
  induction l with
  | nil => rfl
  | cons r rest ih => simp [listIntSum, IntNums.add, List.sum_cons] at ih ⊢; omega

theorem listIntSum_perm {l1 l2 : List XElem} (h : l1.Perm l2) :
    listIntSum l1 = listIntSum l2 := by
  refine IntNums.eq_of_fields ?_ ?_ ?_ ?_ ?_
  · rw [listIntSum_tests, listIntSum_tests, (h.map _).sum_eq]
  · rw [listIntSum_failures, listIntSum_failures, (h.map _).sum_eq]
  · rw [listIntSum_skipped, listIntSum_skipped, (h.map _).sum_eq]
  · rw [listIntSum_errors, listIntSum_errors, (h.map _).sum_eq]
  · rw [listIntSum_xfails, listIntSum_xfails, (h.map _).sum_eq]

/-! ## Helper lemmas: dict operations -/

theorem dictSet_lookup_eq {α : Type} (d : List (String × α)) (k : String) (v : α) :
    pyLookup (dictSet d k v) k = some v := by
  induction d with
  | nil => simp [dictSet, pyLookup]
  | cons p rest ih =>
    obtain ⟨k0, v0⟩ := p
    by_cases hk : k0 = k
    · simp [dictSet, hk, pyLookup]
    · simp [dictSet, hk, pyLookup, ih]

theorem dictSet_lookup_ne {α : Type} (d : List (String × α)) (k g : String) (v : α)
    (h : k ≠ g) : pyLookup (dictSet d k v) g = pyLookup d g := by
  induction d with
  | nil => simp [dictSet, pyLookup, h]
  | cons p rest ih =>
    obtain ⟨k0, v0⟩ := p
    by_cases hk : k0 = k
    · subst hk
      simp [dictSet, pyLookup, h]
    · simp [dictSet, hk, pyLookup, ih]

theorem pyLookup_not_mem {α : Type} (d : List (String × α)) (g : String)
    (h : ¬ g ∈ d.map Prod.fst) : pyLookup d g = none := by
  induction d with
  | nil => rfl
  | cons p rest ih =>
    obtain ⟨k0, v0⟩ := p
    simp only [List.map_cons, List.mem_cons] at h
    push_neg at h
    have hne : ¬ (k0 = g) := fun he => h.1 he.symm
    simp [pyLookup, hne, ih h.2]

theorem updCasesFold (upd : CasesDict) : ∀ (acc cur : CasesDict) (g : String),
    (upd.map Prod.fst).Nodup →
    (∀ k, k ∈ upd.map Prod.fst → pyLookup acc k = pyLookup cur k) →
    (pyLookup
        (upd.foldl (fun nc gp => dictSet nc gp.1 (gp.2 ++ ((pyLookup nc gp.1).getD []))) acc)
        g).getD [] =
      if g ∈ upd.map Prod.fst then (pyLookup upd g).getD [] ++ (pyLookup cur g).getD []
      else (pyLookup acc g).getD [] := by
  induction upd with
  | nil =>
    intro acc cur g _ _
    simp
  | cons p rest ih =>
    obtain ⟨k0, cs0⟩ := p
    intro acc cur g hnd hagree
    simp only [List.map_cons, List.nodup_cons] at hnd
    obtain ⟨hk0, hndr⟩ := hnd
    simp only [List.foldl_cons]
    have hagree' : ∀ k, k ∈ rest.map Prod.fst →
        pyLookup (dictSet acc k0 (cs0 ++ (pyLookup acc k0).getD [])) k = pyLookup cur k := by
      intro k hk
      have hkne : k0 ≠ k := fun he => hk0 (he ▸ hk)
      rw [dictSet_lookup_ne _ _ _ _ hkne]
      exact hagree k (by simp [hk])
    rw [ih (dictSet acc k0 (cs0 ++ (pyLookup acc k0).getD [])) cur g hndr hagree']
    by_cases hg : g ∈ rest.map Prod.fst
    · have hgk : ¬ (k0 = g) := fun he => hk0 (he ▸ hg)
      rw [if_pos hg, if_pos (by simp [hg])]
      simp [pyLookup, hgk]
    · by_cases hgk : g = k0
      · subst hgk
        rw [if_neg hg, if_pos (by simp)]
        rw [dictSet_lookup_eq]
        have := hagree g (by simp)
        simp [pyLookup, this]
      · rw [if_neg hg, if_neg (by simp [hgk, hg])]
        rw [dictSet_lookup_ne _ _ _ _ (Ne.symm hgk)]

/-! ## Helper lemmas: the classifier's xfail prefix -/

theorem xfailOf_eq (tc : XElem) :
    xfailOf tc = (if hasXfailMarker tc then "xfail_" else "") := by
  unfold xfailOf hasXfailMarker
  cases hp : tc.findTag PROPERTIES_TAG with
  | none => simp
  | some pe =>
    cases hch : pe.children with
    | nil => simp [XElem.isTruthy, XElem.findallTag, hch]
    | cons x xs => simp [XElem.isTruthy, hch]

set_option maxRecDepth 100000

/-! ## Claim theorems -/

/-- C1: for every test-case node the classifier accepts, the result label
equals the specification's fixed first-match-wins precedence — a failure child
gives (prefix)failure, else a skipped child gives (prefix)skipped, else an
error child gives (prefix)error, else (prefix)success, where the prefix is
"xfail_" exactly when an xfail marker property is present among the case's
properties. -/
theorem c1_result_label (tc : XElem) (f : String) (r : CaseR)
    (h : _parse_test_case tc = .ok (f, r)) : r.result = resultLabelSpec tc := by
  unfold _parse_test_case at h
  cases hcn : tc.getAttr "classname" with
  | none => simp only [hcn] at h; exact absurd h (by simp)
  | some cn =>
    simp only [hcn, Except.ok.injEq, Prod.mk.injEq] at h
    obtain ⟨hf, hr⟩ := h
    subst hr
    unfold resultLabelSpec
    rw [← xfailOf_eq]
    unfold hasMarkerChild
    cases hfa : tc.findTag "failure" with
    | some fe => simp [hfa]
    | none =>
      cases hsk : tc.findTag "skipped" with
      | some se => simp [hfa, hsk]
      | none =>
        cases her : tc.findTag "error" with
        | some ee => simp [hfa, hsk, her]
        | none => simp [hfa, hsk, her]

/-- C1 witness: a concrete case with an xfail marker and a skipped child
classifies to result "xfail_skipped" (with the error flag false). -/
theorem c1_result_label_witness :
    _parse_test_case exCaseXfailSkip = .ok ("featA", exCaseXfailSkipR) ∧
    exCaseXfailSkipR.result = resultLabelSpec exCaseXfailSkip ∧
    exCaseXfailSkipR.result = "xfail_skipped" ∧ exCaseXfailSkipR.error = false :=
  ⟨rfl, c1_result_label exCaseXfailSkip "featA" exCaseXfailSkipR rfl, rfl, rfl⟩

/-- C2: for every test-case node the classifier accepts, the parsed
error-occurred flag is true exactly when an error marker child is present,
independently of which branch produced the result label. -/
theorem c2_error_flag (tc : XElem) (f : String) (r : CaseR)
    (h : _parse_test_case tc = .ok (f, r)) : r.error = (tc.findTag "error").isSome := by
  unfold _parse_test_case at h
  cases hcn : tc.getAttr "classname" with
  | none => simp only [hcn] at h; exact absurd h (by simp)
  | some cn =>
    simp only [hcn, Except.ok.injEq, Prod.mk.injEq] at h
    obtain ⟨hf, hr⟩ := h
    subst hr
    rfl

/-- C2 witness: a concrete case with both a failure child and an error child
(and no xfail marker) yields result "failure" with the error flag true. -/
theorem c2_error_flag_witness :
    _parse_test_case exCaseFailErr = .ok ("featB", exCaseFailErrR) ∧
    exCaseFailErrR.error = (exCaseFailErr.findTag "error").isSome ∧
    exCaseFailErrR.result = "failure" ∧ exCaseFailErrR.error = true :=
  ⟨rfl, c2_error_flag exCaseFailErr "featB" exCaseFailErrR rfl, rfl, rfl⟩

/-- C3 counterexample: a validated test case with a skipped child and an error
child parses to result "skipped" with the error flag set, but the extracted
summary counts it in failures as "0" while the claim's rule (failure- or
error-classified result, or the error flag) would count 1. -/
theorem c3_counterexample :
    _parse_test_cases (XElem.mk "testsuite" [] [exCaseSkipErr]) = .ok exC3Dict ∧
    exCaseSkipErrR.error = true ∧
    exCaseSkipErrR.result = "skipped" ∧
    claimC3Failures exC3Dict = 1 ∧
    _extract_test_summary exC3Dict =
      .ok [("tests", "1"), ("failures", "0"), ("skipped", "1"), ("errors", "1"),
           ("time", "1.0"), ("xfails", "0")] ∧
    pyLookup [("tests", "1"), ("failures", "0"), ("skipped", "1"), ("errors", "1"),
        ("time", "1.0"), ("xfails", "0")] "failures" = some "0" ∧
    natToStr (claimC3Failures exC3Dict) = "1" ∧ ("0" : String) ≠ "1" :=
  ⟨rfl, rfl, rfl, rfl, rfl, rfl, rfl, by decide⟩

/-- C3 (amended): the derived per-document summary counts failures as the
cases whose result label is exactly "failure" or exactly "error" (the error
flag and xfail-prefixed labels play no part), skipped as the cases whose
result is exactly "skipped", and errors as the cases whose error flag is set. -/
theorem c3_failures_counts (d : CasesDict) (s : PyDict)
    (h : _extract_test_summary d = .ok s) (hne : flattenCases d ≠ []) :
    pyLookup s "failures" =
      some (natToStr ((flattenCases d).countP
        (fun c => c.result == "failure" || c.result == "error"))) ∧
    pyLookup s "skipped" =
      some (natToStr ((flattenCases d).countP (fun c => c.result == "skipped"))) ∧
    pyLookup s "errors" = some (natToStr ((flattenCases d).countP (fun c => c.error))) := by
  unfold _extract_test_summary at h
  cases hen : extractNums (flattenCases d) SumNums.zero with
  | error e => simp only [hen] at h; exact absurd h (by simp)
  | ok n =>
    simp only [hen, Except.ok.injEq] at h
    obtain ⟨e1, e2, e3, e4, e5⟩ := extractNums_counts _ _ _ hen
    have e2' : n.failures = (flattenCases d).countP
        (fun c => c.result == "failure" || c.result == "error") := by
      simpa [SumNums.zero] using e2
    have e3' : n.skipped = (flattenCases d).countP (fun c => c.result == "skipped") := by
      simpa [SumNums.zero] using e3
    have e4' : n.errors = (flattenCases d).countP (fun c => c.error) := by
      simpa [SumNums.zero] using e4
    have hfe : (flattenCases d).isEmpty = false := by
      cases hce : flattenCases d with
      | nil => exact absurd hce hne
      | cons a b => rfl
    rw [← h]
    refine ⟨?_, ?_, ?_⟩ <;> simp [renderExtract, hfe, pyLookup, e2', e3', e4']

/-- C3 witness: the amended counting rule instantiated at the concrete
skipped-plus-error collection. -/
theorem c3_failures_counts_witness :
    pyLookup [("tests", "1"), ("failures", "0"), ("skipped", "1"), ("errors", "1"),
        ("time", "1.0"), ("xfails", "0")] "failures" =
      some (natToStr ((flattenCases exC3Dict).countP
        (fun c => c.result == "failure" || c.result == "error"))) ∧
    pyLookup [("tests", "1"), ("failures", "0"), ("skipped", "1"), ("errors", "1"),
        ("time", "1.0"), ("xfails", "0")] "skipped" =
      some (natToStr ((flattenCases exC3Dict).countP (fun c => c.result == "skipped"))) ∧
    pyLookup [("tests", "1"), ("failures", "0"), ("skipped", "1"), ("errors", "1"),
        ("time", "1.0"), ("xfails", "0")] "errors" =
      some (natToStr ((flattenCases exC3Dict).countP (fun c => c.error))) :=
  c3_failures_counts exC3Dict
    [("tests", "1"), ("failures", "0"), ("skipped", "1"), ("errors", "1"),
     ("time", "1.0"), ("xfails", "0")] rfl (by decide)

/-- C4 counterexample: two archive documents that both pass individual
validation and disagree on the non-timestamp key testbed; in lenient mode the
archive scan returns successfully with only the first document, rather than
propagating a merge-conflict error. -/
theorem c4_counterexample :
    (validate_junit_xml_file exArchDocA.file).1 = .ok (mkArchiveRoot "lab1") ∧
    (validate_junit_xml_file exArchDocB.file).1 = .ok (mkArchiveRoot "lab2") ∧
    dictBeq (archiveMetadataOf (mkArchiveRoot "lab2"))
      (archiveMetadataOf (mkArchiveRoot "lab1")) = false ∧
    validate_junit_xml_archive [exArchDocA, exArchDocB] false = .ok [mkArchiveRoot "lab1"] :=
  ⟨rfl, rfl, rfl, rfl⟩

/-- C4 (amended): when two individually valid documents disagree on
non-timestamp required metadata, lenient mode skips the conflicting document
with a diagnostic and returns the survivors; only strict mode propagates the
conflict as an error naming both documents and their metadata. -/
theorem c4_lenient_skips_conflict (d1 d2 : ArchiveDoc) (r1 r2 : XElem)
    (h1 : (validate_junit_xml_file d1.file).1 = .ok r1)
    (h2 : (validate_junit_xml_file d2.file).1 = .ok r2)
    (hm1 : (archiveMetadataOf r1).isEmpty = false)
    (hm2 : (archiveMetadataOf r2).isEmpty = false)
    (hself : dictBeq (archiveMetadataOf r1) (archiveMetadataOf r1) = true)
    (hd : dictBeq (archiveMetadataOf r2) (archiveMetadataOf r1) = false)
    (hsize : sizeExceeds ([d1, d2].map (fun d => d.file.size)).sum = false) :
    validate_junit_xml_archive [d1, d2] false = .ok [r1] ∧
    validate_junit_xml_archive [d1, d2] true =
      .error ("could not parse " ++ d2.name ++ ": " ++
        archiveConflictMsg d2.name d1.name (archiveMetadataOf r2) (archiveMetadataOf r1)) := by
  have hsize' : sizeExceeds (d1.file.size + d2.file.size) = false := by simpa using hsize
  refine ⟨?_, ?_⟩ <;>
    simp [validate_junit_xml_archive, hsize', archiveLoop, h1, h2, hm1, hm2, hself, hd]

/-- C4 witness: the amended behaviour at the concrete lab1/lab2 archive. -/
theorem c4_lenient_skips_conflict_witness :
    validate_junit_xml_archive [exArchDocA, exArchDocB] false = .ok [mkArchiveRoot "lab1"] ∧
    validate_junit_xml_archive [exArchDocA, exArchDocB] true =
      .error ("could not parse " ++ exArchDocB.name ++ ": " ++
        archiveConflictMsg exArchDocB.name exArchDocA.name
          (archiveMetadataOf (mkArchiveRoot "lab2"))
          (archiveMetadataOf (mkArchiveRoot "lab1"))) :=
  c4_lenient_skips_conflict exArchDocA exArchDocB (mkArchiveRoot "lab1") (mkArchiveRoot "lab2")
    rfl rfl rfl rfl rfl rfl rfl

/-- C5 counterexample: merging an aggregate holding one case with an incoming
document holding another case under the same feature lists the incoming
document's case first, not after the aggregate's existing cases. -/
theorem c5_counterexample :
    _update_test_cases exCurCases exUpdCases = [("feat", [exCaseTwo, exCaseOne])] ∧
    pyLookup (_update_test_cases exCurCases exUpdCases) "feat" =
      some [exCaseTwo, exCaseOne] ∧
    [exCaseTwo, exCaseOne] ≠ [exCaseOne, exCaseTwo] :=
  ⟨rfl, rfl, by decide⟩

/-- C5 (amended): for every feature key, the merged aggregate lists the
incoming document's cases first, followed by the aggregate's previously
accumulated cases for that key (creating the key if absent), so within each
feature later-processed documents precede earlier-processed ones. -/
theorem c5_merge_order (cur upd : CasesDict) (g : String)
    (hu : (upd.map Prod.fst).Nodup) :
    (pyLookup (_update_test_cases cur upd) g).getD [] =
      (pyLookup upd g).getD [] ++ (pyLookup cur g).getD [] := by
  unfold _update_test_cases
  cases cur with
  | nil => simp [pyLookup]
  | cons p rest =>
    simp only [List.isEmpty_cons, Bool.false_eq_true, if_false]
    rw [updCasesFold upd (p :: rest) (p :: rest) g hu (fun k _ => rfl)]
    by_cases hg : g ∈ upd.map Prod.fst
    · simp [hg]
    · rw [if_neg hg, pyLookup_not_mem upd g hg]
      simp

/-- C5 witness: the amended ordering instantiated at the concrete two-case
merge. -/
theorem c5_merge_order_witness :
    (pyLookup (_update_test_cases exCurCases exUpdCases) "feat").getD [] =
      (pyLookup exUpdCases "feat").getD [] ++ (pyLookup exCurCases "feat").getD [] :=
  c5_merge_order exCurCases exUpdCases "feat" (by decide)

/-- C6: once the aggregate summary is non-empty, merging parses every declared
field from both sides by its declared numeric type (a missing key contributing
the number 0), sums, rounds to three decimal places (the identity on the int
fields) and re-emits each field as a string — including the extended xfails
counter. -/
theorem c6_summary_merge (c u : PyDict) (hc : c.isEmpty = false)
    (tc tu : PyF) (nc nu sc su fc fu ec eu xc xu : Int)
    (h1 : getFloatEntry c "time" = .ok tc) (h2 : getFloatEntry u "time" = .ok tu)
    (h3 : getIntEntry c "tests" = .ok nc) (h4 : getIntEntry u "tests" = .ok nu)
    (h5 : getIntEntry c "skipped" = .ok sc) (h6 : getIntEntry u "skipped" = .ok su)
    (h7 : getIntEntry c "failures" = .ok fc) (h8 : getIntEntry u "failures" = .ok fu)
    (h9 : getIntEntry c "errors" = .ok ec) (h10 : getIntEntry u "errors" = .ok eu)
    (h11 : getIntEntry c "xfails" = .ok xc) (h12 : getIntEntry u "xfails" = .ok xu) :
    _update_test_summary c u =
      .ok [("time", qDecStr (pyRound3 (tc.add tu))),
           ("tests", intToStr (nc + nu)),
           ("skipped", intToStr (sc + su)),
           ("failures", intToStr (fc + fu)),
           ("errors", intToStr (ec + eu)),
           ("xfails", intToStr (xc + xu))] := by
  unfold _update_test_summary
  simp [hc, h1, h2, h3, h4, h5, h6, h7, h8, h9, h10, h11, h12]

/-- C6 witness: two documents each with 5 tests, 1 failure and elapsed times
1.234 and 2.000 merge to tests="10", failures="2", time="3.234". -/
theorem c6_summary_merge_witness :
    _update_test_summary exSumA exSumB =
      .ok [("time", "3.234"), ("tests", "10"), ("skipped", "0"), ("failures", "2"),
           ("errors", "0"), ("xfails", "0")] :=
  (c6_summary_merge exSumA exSumB rfl ⟨1234, 1000⟩ ⟨2000, 1000⟩ 5 5 0 0 1 1 0 0 0 0
    rfl rfl rfl rfl rfl rfl rfl rfl rfl rfl rfl rfl).trans rfl

/-- C7 counterexample: permuting three concrete per-document models changes
the merged Summary's time field ("0.001" versus "0.0"), because every fold
step rounds the running elapsed-time sum to three decimal places. -/
theorem c7_counterexample :
    [exDoc7A, exDoc7B, exDoc7C].Perm [exDoc7C, exDoc7A, exDoc7B] ∧
    (parse_test_result [exDoc7A, exDoc7B, exDoc7C]).map
        (fun o => o.map (fun st => pyLookup st.2.2 "time")) = .ok (some (some "0.001")) ∧
    (parse_test_result [exDoc7C, exDoc7A, exDoc7B]).map
        (fun o => o.map (fun st => pyLookup st.2.2 "time")) = .ok (some (some "0.0")) ∧
    (some (some "0.001") : Option (Option String)) ≠ some (some "0.0") := by
  refine ⟨?_, rfl, rfl, by decide⟩
  exact (List.Perm.cons exDoc7A (List.Perm.swap exDoc7C exDoc7B [])).trans
    (List.Perm.swap exDoc7C exDoc7A [exDoc7B])

/-- C7 (amended): folding any permutation of the same documents yields the
same five integer Summary fields (tests, failures, skipped, errors, xfails);
only the elapsed-time field may depend on the order, because of the per-step
rounding. -/
theorem c7_int_fields_perm (l1 l2 : List XElem) (hp : l1.Perm l2)
    (st1 st2 : PyDict × CasesDict × PyDict)
    (h1 : parse_test_result l1 = .ok (some st1))
    (h2 : parse_test_result l2 = .ok (some st2)) :
    pyLookup st1.2.2 "tests" = pyLookup st2.2.2 "tests" ∧
    pyLookup st1.2.2 "failures" = pyLookup st2.2.2 "failures" ∧
    pyLookup st1.2.2 "skipped" = pyLookup st2.2.2 "skipped" ∧
    pyLookup st1.2.2 "errors" = pyLookup st2.2.2 "errors" ∧
    pyLookup st1.2.2 "xfails" = pyLookup st2.2.2 "xfails" := by
  have p1 := sumFold_inv l1 [] IntNums.zero st1.2.2 (Or.inl ⟨rfl, rfl⟩) (parse_result_proj h1)
  have p2 := sumFold_inv l2 [] IntNums.zero st2.2.2 (Or.inl ⟨rfl, rfl⟩) (parse_result_proj h2)
  rw [IntNums.zero_add] at p1 p2
  rw [listIntSum_perm hp] at p1
  rcases p1 with ⟨e1, z1⟩ | ⟨a1, a2, a3, a4, a5, apos⟩
  · rcases p2 with ⟨e2, _⟩ | ⟨b1, b2, b3, b4, b5, bpos⟩
    · rw [e1, e2]
      exact ⟨rfl, rfl, rfl, rfl, rfl⟩
    · rw [z1] at bpos
      exact absurd bpos (by simp [IntNums.zero])
  · rcases p2 with ⟨e2, z2⟩ | ⟨b1, b2, b3, b4, b5, bpos⟩
    · rw [z2] at apos
      exact absurd apos (by simp [IntNums.zero])
    · rw [a1, b1, a2, b2, a3, b3, a4, b4, a5, b5]
      exact ⟨rfl, rfl, rfl, rfl, rfl⟩

/-- C7 witness: the amended statement instantiated at a concrete two-document
swap. -/
theorem c7_int_fields_perm_witness :
    parse_test_result [exDoc7A, exDoc7C] = .ok (some exSt7AC) ∧
    parse_test_result [exDoc7C, exDoc7A] = .ok (some exSt7CA) ∧
    (pyLookup exSt7AC.2.2 "tests" = pyLookup exSt7CA.2.2 "tests" ∧
     pyLookup exSt7AC.2.2 "failures" = pyLookup exSt7CA.2.2 "failures" ∧
     pyLookup exSt7AC.2.2 "skipped" = pyLookup exSt7CA.2.2 "skipped" ∧
     pyLookup exSt7AC.2.2 "errors" = pyLookup exSt7CA.2.2 "errors" ∧
     pyLookup exSt7AC.2.2 "xfails" = pyLookup exSt7CA.2.2 "xfails") :=
  ⟨rfl, rfl,
    c7_int_fields_perm [exDoc7A, exDoc7C] [exDoc7C, exDoc7A]
      (List.Perm.swap exDoc7C exDoc7A []) exSt7AC exSt7CA rfl rfl⟩

/-- C8: the metadata merge takes the minimum of the two parsed timestamps and
re-emits it with str(datetime), which drops the ".%f" fraction when the
microsecond value is zero; with three documents the re-emitted intermediate
minimum then fails to re-parse under the fixed format, so the fold errors in
one order and succeeds with the true minimum in another — all three
contributing timestamps being individually parsable. -/
theorem c8_timestamp_min_bug :
    metaFold [exMeta1, exMeta2] = .ok (mkMetaDict "2021-01-01 00:00:00") ∧
    metaFold [exMeta1, exMeta2, exMeta3] =
      .error ("ValueError: time data \x272021-01-01 00:00:00\x27 does not match format " ++
        "\x27%Y-%m-%d %H:%M:%S.%f\x27") ∧
    metaFold [exMeta2, exMeta3, exMeta1] = .ok (mkMetaDict "2021-01-01 00:00:00") ∧
    strptimeFixed "2021-01-01 00:00:00.000000" = some (⟨2021, 1, 1, 0, 0, 0, 0⟩ : PyDateTime) ∧
    strptimeFixed "2021-01-02 10:00:00.500000" =
      some (⟨2021, 1, 2, 10, 0, 0, 500000⟩ : PyDateTime) ∧
    strptimeFixed "2021-01-03 10:00:00.500000" =
      some (⟨2021, 1, 3, 10, 0, 0, 500000⟩ : PyDateTime) ∧
    strptimeFixed "2021-01-01 00:00:00" = none :=
  ⟨rfl, rfl, rfl, rfl, rfl, rfl, rfl⟩

/-- C9: any input whose size exceeds the fixed ceiling is rejected with a
size error by both entry points, and the trace of tree constructions is empty:
no XML parsing is attempted before the size check. -/
theorem c9_size_before_parse (s : StreamIn) (f : FileIn)
    (hs : sizeExceeds s.size = true) (hf : sizeExceeds f.size = true)
    (he : f.exists_ = true) (hif : f.isFile = true) :
    validate_junit_xml_stream s = (.error "provided stream is too large", []) ∧
    validate_junit_xml_file f = (.error "provided file is too large", []) := by
  constructor
  · simp [validate_junit_xml_stream, hs]
  · simp [validate_junit_xml_file, he, hif, hf]

/-- C9 witness: a 300000000-byte stream and file are both rejected before any
tree construction. -/
theorem c9_size_before_parse_witness :
    validate_junit_xml_stream exStreamBig = (.error "provided stream is too large", []) ∧
    validate_junit_xml_file exFileBig = (.error "provided file is too large", []) :=
  c9_size_before_parse exStreamBig exFileBig rfl rfl rfl rfl

/-- C10: metadata validation succeeds without checking any required key when
the properties element is absent or has no child elements (such a document
passes full validation when the summary and case checks pass), and the
metadata error can only arise when a properties element with at least one
child element is present. -/
theorem c10_empty_properties (root : XElem) :
    ((root.findTag PROPERTIES_TAG = none ∨
        ∃ pe, root.findTag PROPERTIES_TAG = some pe ∧ pe.children = []) →
      _validate_test_metadata root = .ok () ∧
        (_validate_test_summary root = .ok () → _validate_test_cases root = .ok () →
          _validate_junit_xml root = .ok root)) ∧
    (∀ e, _validate_test_metadata root = .error e →
      ∃ pe, root.findTag PROPERTIES_TAG = some pe ∧ pe.children ≠ []) := by
  constructor
  · intro h
    have hm : _validate_test_metadata root = .ok () := by
      rcases h with hnone | ⟨pe, hpe, hch⟩
      · simp [_validate_test_metadata, hnone]
      · simp [_validate_test_metadata, hpe, XElem.isTruthy, hch]
    refine ⟨hm, ?_⟩
    intro hs hc
    simp [_validate_junit_xml, hs, hm, hc]
  · intro e he
    unfold _validate_test_metadata at he
    cases hp : root.findTag PROPERTIES_TAG with
    | none => simp only [hp] at he; exact absurd he (by simp)
    | some pe =>
      cases hch : pe.children with
      | nil =>
        simp only [hp] at he
        simp [XElem.isTruthy, hch] at he
      | cons x xs =>
        exact ⟨pe, rfl, by simp [hch]⟩

/-- C10 witness: a concrete document with required numeric attributes and no
properties element passes metadata validation and full validation. -/
theorem c10_empty_properties_witness :
    _validate_test_metadata exRootNoProps = .ok () ∧
    _validate_junit_xml exRootNoProps = .ok exRootNoProps :=
  ⟨((c10_empty_properties exRootNoProps).1 (Or.inl rfl)).1,
   ((c10_empty_properties exRootNoProps).1 (Or.inl rfl)).2 rfl rfl⟩
